import Mathlib

/-!
# AutoPulse vehicle-diagnostic pipeline — verification

Shallow embedding of the telemetry-to-health-classification pipeline of the
AutoPulse repository, together with proofs about the properties its
specification states.

Conventions of the embedding:
* Python floats are modelled as exact rationals (`ℚ`); every comparison the
  classifier makes is against a decimal constant, so ordering behaviour is
  preserved.
* A Python dict with possibly-missing keys is modelled as a structure of
  `Option`-valued fields; `data.get(key, default)` becomes `Option.getD`.
* External cryptographic hashes (sha256/md5) are not modelled bit-for-bit;
  functions that apply them take the hash as an explicit `String → String`
  argument, which suffices for the determinism properties proved here.
-/

namespace AutoPulse

/-- One OBD reading, as built by `read_obd_data` in
`src/cloud_collector_daemon_pro.py` and consumed by `_auto_label_health`.
Only the fields that the embedded functions touch are modelled; a field with
value `none` models a key absent from the Python dict. -/
structure OBDData where
  rpm : Option ℚ := none
  speed : Option ℚ := none
  coolant_temp : Option ℚ := none
  engine_load : Option ℚ := none
  throttle_pos : Option ℚ := none
  short_fuel_trim_1 : Option ℚ := none
  long_fuel_trim_1 : Option ℚ := none
  maf : Option ℚ := none
  o2_b1s1 : Option ℚ := none
  catalyst_temp_b1s1 : Option ℚ := none
  control_module_voltage : Option ℚ := none
  distance_w_mil : Option ℚ := none
  dtc_count : Option ℕ := none
  mil_status : Option Bool := none
  deriving DecidableEq

/-- The hard-CRITICAL short-circuit condition of `_auto_label_health`
(`cloud_collector_daemon_pro.py`, lines 372–376): severe overheating, dying
battery, many stored trouble codes, failing catalytic converter, or extreme
engine load. The defaults mirror the Python `data.get(...)` calls. -/
def hardCritical (d : OBDData) : Prop :=
  d.coolant_temp.getD 0 > 110 ∨
  d.control_module_voltage.getD 14 < 11 ∨
  d.dtc_count.getD 0 > 10 ∨
  d.catalyst_temp_b1s1.getD 0 > 900 ∨
  d.engine_load.getD 0 > 95

instance (d : OBDData) : Decidable (hardCritical d) := by
  unfold hardCritical; infer_instance

/-- Stress factor 1 — engine load analysis. -/
def loadFactor (d : OBDData) : ℕ :=
  let engine_load := d.engine_load.getD 0
  if engine_load > 85 then 3
  else if engine_load > 70 then 2
  else if engine_load > 50 then 1
  else 0

/-- Stress factor 2 — RPM vs load mismatch. -/
def rpmMismatchFactor (d : OBDData) : ℕ :=
  let rpm := d.rpm.getD 0
  let engine_load := d.engine_load.getD 0
  if rpm > 3500 ∧ engine_load < 30 then 2
  else if rpm > 4500 then 2
  else 0

/-- Stress factor 3 — coolant temperature stress. -/
def tempFactor (d : OBDData) : ℕ :=
  let coolant_temp := d.coolant_temp.getD 0
  if coolant_temp > 105 then 3
  else if coolant_temp > 100 then 2
  else if coolant_temp > 95 then 1
  else 0

/-- Stress factor 4 — control-module voltage issues. -/
def voltageFactor (d : OBDData) : ℕ :=
  let voltage := d.control_module_voltage.getD 14
  if voltage < 12 then 2
  else if voltage < 13 then 1
  else if voltage > 15 then 2
  else 0

/-- Stress factor 5 — fuel-trim analysis. -/
def fuelTrimFactor (d : OBDData) : ℕ :=
  let short_trim := |d.short_fuel_trim_1.getD 0|
  let long_trim := |d.long_fuel_trim_1.getD 0|
  if short_trim > 20 ∨ long_trim > 15 then 2
  else if short_trim > 10 ∨ long_trim > 8 then 1
  else 0

/-- Stress factor 6 — O2-sensor deviation from the 0.45 V baseline. -/
def o2Factor (d : OBDData) : ℕ :=
  let o2_voltage := d.o2_b1s1.getD 0.45
  if |o2_voltage - 0.45| > 0.3 then 1 else 0

/-- Stress factor 7 — stored diagnostic trouble codes. -/
def dtcFactor (d : OBDData) : ℕ :=
  let dtc_count := d.dtc_count.getD 0
  if dtc_count ≥ 3 then 2
  else if dtc_count ≥ 1 then 1
  else 0

/-- Stress factor 8 — MIL (check-engine lamp) on. -/
def milFactor (d : OBDData) : ℕ :=
  if d.mil_status.getD false then 2 else 0

/-- Stress factor 9 — distance driven with the MIL on. -/
def distanceFactor (d : OBDData) : ℕ :=
  if d.distance_w_mil.getD 0 > 50 then 1 else 0

/-- The accumulated engine-stress score: the sum of the nine independent
factor increments of `_auto_label_health` (lines 379–445). -/
def stressScore (d : OBDData) : ℕ :=
  loadFactor d + rpmMismatchFactor d + tempFactor d + voltageFactor d +
  fuelTrimFactor d + o2Factor d + dtcFactor d + milFactor d + distanceFactor d

/-- The labeler `_auto_label_health` (`cloud_collector_daemon_pro.py`, lines 358–458):
returns the pair `(health_status, engine_stress_score)` where the status is
NORMAL(0) < ADVISORY(1) < WARNING(2) < CRITICAL(3). -/
def autoLabelHealth (d : OBDData) : ℕ × ℕ :=
  if hardCritical d then (3, 15)
  else
    let s := stressScore d
    if s ≥ 6 then (2, s)
    else if s ≥ 3 then (1, s)
    else (0, s)

/-- A reading in which every optional key is absent: the classifier then sees
only its own `data.get` defaults. -/
def emptyReading : OBDData := {}

/-- A reading whose only abnormal value is a severely overheated coolant
temperature of 120 °C. -/
def overheatedReading : OBDData := { coolant_temp := some 120 }

end AutoPulse

namespace AutoPulse

/-- C1: a reading satisfying any hard-threshold condition (coolant_temp > 110,
control_module_voltage < 11, dtc_count > 10, catalyst_temp_b1s1 > 900, or
engine_load > 95) is classified CRITICAL (status 3) with stress_score = 15,
regardless of every other field, bypassing the weighted factor sum. -/
theorem hard_threshold_short_circuits_to_critical (d : OBDData)
    (h : d.coolant_temp.getD 0 > 110 ∨
         d.control_module_voltage.getD 14 < 11 ∨
         d.dtc_count.getD 0 > 10 ∨
         d.catalyst_temp_b1s1.getD 0 > 900 ∨
         d.engine_load.getD 0 > 95) :
    autoLabelHealth d = (3, 15) := by
  unfold autoLabelHealth
  rw [if_pos]
  exact h

/-- Witness for C1: the concrete reading with coolant_temp = 120 (and all
other fields absent) satisfies the hypothesis and is classified (3, 15). -/
theorem hard_threshold_short_circuits_to_critical_witness :
    overheatedReading.coolant_temp.getD 0 > 110 ∧
    autoLabelHealth overheatedReading = (3, 15) :=
  ⟨by norm_num [overheatedReading],
   hard_threshold_short_circuits_to_critical overheatedReading
     (Or.inl (by norm_num [overheatedReading]))⟩

/-- C2: a reading that triggers no hard-CRITICAL condition is classified by
its accumulated integer stress score — the returned stress_score is exactly
that sum, a score ≥ 6 yields WARNING (2), a score in 3..5 yields ADVISORY (1),
and a score ≤ 2 yields NORMAL (0). -/
theorem score_band_classification (d : OBDData) (h : ¬ hardCritical d) :
    (autoLabelHealth d).2 = stressScore d ∧
    (6 ≤ stressScore d → (autoLabelHealth d).1 = 2) ∧
    (3 ≤ stressScore d ∧ stressScore d ≤ 5 → (autoLabelHealth d).1 = 1) ∧
    (stressScore d ≤ 2 → (autoLabelHealth d).1 = 0) := by
  unfold autoLabelHealth
  rw [if_neg h]
  dsimp only
  split_ifs <;> simp_all <;> omega

/-- Witness for C2: the all-defaults reading triggers no hard condition, its
stress score is 0, and it is classified NORMAL (0) with score 0. -/
theorem score_band_classification_witness :
    ¬ hardCritical emptyReading ∧ stressScore emptyReading = 0 ∧
    (autoLabelHealth emptyReading).1 = 0 ∧
    (autoLabelHealth emptyReading).2 = 0 := by
  have hnc : ¬ hardCritical emptyReading := by
    norm_num [hardCritical, emptyReading]
  have hs : stressScore emptyReading = 0 := by
    norm_num [stressScore, loadFactor, rpmMismatchFactor, tempFactor,
      voltageFactor, fuelTrimFactor, o2Factor, dtcFactor, milFactor,
      distanceFactor, emptyReading]
  have h := score_band_classification emptyReading hnc
  exact ⟨hnc, hs, h.2.2.2 (by omega), by rw [h.1, hs]⟩

/-- C5: among readings that trigger no hard-CRITICAL condition, the classified
severity is monotone in the accumulated stress score — if the score of A
strictly exceeds that of B, the severity of A is at least that of B. -/
theorem severity_monotone_in_score (A B : OBDData)
    (hA : ¬ hardCritical A) (hB : ¬ hardCritical B)
    (hlt : stressScore B < stressScore A) :
    (autoLabelHealth B).1 ≤ (autoLabelHealth A).1 := by
  unfold autoLabelHealth
  rw [if_neg hA, if_neg hB]
  dsimp only
  split_ifs <;> omega

/-- A reading under high engine load (72 %) with warm coolant (96 °C):
stress score 2 + 1 = 3, classified ADVISORY. -/
def highLoadReading : OBDData :=
  { engine_load := some 72, coolant_temp := some 96 }

/-- Witness for C5: `highLoadReading` (score 3) versus the all-defaults
reading (score 0); neither is hard-critical and severities are ordered. -/
theorem severity_monotone_in_score_witness :
    ¬ hardCritical highLoadReading ∧ ¬ hardCritical emptyReading ∧
    stressScore emptyReading < stressScore highLoadReading ∧
    (autoLabelHealth emptyReading).1 ≤ (autoLabelHealth highLoadReading).1 := by
  have hA : ¬ hardCritical highLoadReading := by
    norm_num [hardCritical, highLoadReading]
  have hB : ¬ hardCritical emptyReading := by
    norm_num [hardCritical, emptyReading]
  have hlt : stressScore emptyReading < stressScore highLoadReading := by
    norm_num [stressScore, loadFactor, rpmMismatchFactor, tempFactor,
      voltageFactor, fuelTrimFactor, o2Factor, dtcFactor, milFactor,
      distanceFactor, emptyReading, highLoadReading]
  exact ⟨hA, hB, hlt,
    severity_monotone_in_score highLoadReading emptyReading hA hB hlt⟩

/-- End-to-end scenario 1 of the spec: rpm 1028, speed 0, coolant 96 °C,
engine load 50.6 %, throttle 18.8 %, voltage 14.1 V, no trouble codes, MIL
off, every remaining field absent (so the classifier defaults apply). -/
def scenario1Reading : OBDData :=
  { rpm := some 1028
    speed := some 0
    coolant_temp := some 96
    engine_load := some 50.6
    throttle_pos := some 18.8
    control_module_voltage := some 14.1
    dtc_count := some 0
    mil_status := some false }

/-- C7 (amended): the scenario-1 reading accumulates stress score 2
(engine_load > 50 contributes +1 and coolant_temp > 95 contributes +1,
nothing else) and is classified NORMAL (status 0). -/
theorem scenario1_normal_with_score_two :
    loadFactor scenario1Reading = 1 ∧
    tempFactor scenario1Reading = 1 ∧
    stressScore scenario1Reading = 2 ∧
    autoLabelHealth scenario1Reading = (0, 2) := by
  have h1 : loadFactor scenario1Reading = 1 := by
    norm_num [loadFactor, scenario1Reading]
  have h2 : tempFactor scenario1Reading = 1 := by
    norm_num [tempFactor, scenario1Reading]
  have hs : stressScore scenario1Reading = 2 := by
    norm_num [stressScore, loadFactor, rpmMismatchFactor, tempFactor,
      voltageFactor, fuelTrimFactor, o2Factor, dtcFactor, milFactor,
      distanceFactor, scenario1Reading]
  have hnc : ¬ hardCritical scenario1Reading := by
    norm_num [hardCritical, scenario1Reading]
  refine ⟨h1, h2, hs, ?_⟩
  unfold autoLabelHealth
  rw [if_neg hnc]
  simp only [hs]
  norm_num

/-- Counterexample to C7: on the scenario-1 reading the rule engine returns
status NORMAL (0) with stress score 2 — not ADVISORY (1) with score ≈ 3 as
the claim states. Only engine_load > 50 and coolant_temp > 95 contribute, so
the sum is 2, which falls in the NORMAL band (0–2). -/
theorem scenario1_not_advisory :
    autoLabelHealth scenario1Reading ≠ (1, 3) ∧
    (autoLabelHealth scenario1Reading).1 ≠ 1 := by
  have hs : stressScore scenario1Reading = 2 := by
    norm_num [stressScore, loadFactor, rpmMismatchFactor, tempFactor,
      voltageFactor, fuelTrimFactor, o2Factor, dtcFactor, milFactor,
      distanceFactor, scenario1Reading]
  have hnc : ¬ hardCritical scenario1Reading := by
    norm_num [hardCritical, scenario1Reading]
  unfold autoLabelHealth
  rw [if_neg hnc]
  simp only [hs]
  norm_num

end AutoPulse

namespace AutoPulse

/-!
## Derived feature: load/RPM ratio

`read_obd_data` (`cloud_collector_daemon_pro.py`, lines 317–321) computes
`load_rpm_ratio` from the reading it just built; the ML feature engineering
(`ml_predictor.py`, line 53) later coerces it with Python `or 0`.
-/

/-- The feature `load_rpm_ratio` as computed by `read_obd_data`: the Python
guard tests truthiness of the rpm key and then rpm > 0, so a missing, zero
(falsy) or
non-positive rpm takes the else branch, which stores `None`. -/
def load_rpm_ratio (d : OBDData) : Option ℚ :=
  match d.rpm with
  | some r => if r > 0 then some (d.engine_load.getD 0 / r * 1000) else none
  | none => none

/-- Python truthiness coercion `x or 0` applied to an optional float:
`None` and `0` both yield `0`. -/
def pyOrZero (x : Option ℚ) : ℚ :=
  match x with
  | some v => if v = 0 then 0 else v
  | none => 0

/-- The `load_rpm_ratio` feature as `engineer_features` in `ml_predictor.py`
sees it: the stored value coerced by Python `or 0`. -/
def mlLoadRpmRatio (d : OBDData) : ℚ :=
  pyOrZero (load_rpm_ratio d)

/-- A reading whose engine is not turning (rpm = 0) under load. -/
def stalledReading : OBDData :=
  { rpm := some 0, engine_load := some 40 }

/-- Counterexample to C8: with rpm = 0 the `load_rpm_ratio` stored on the
reading is `None` (the key is set to Python `None`), not `0` as the claim
states. -/
theorem load_rpm_ratio_none_not_zero :
    load_rpm_ratio stalledReading = none ∧
    load_rpm_ratio stalledReading ≠ some 0 := by
  constructor <;> simp [load_rpm_ratio, stalledReading]

/-- C8 (amended): `load_rpm_ratio` equals `(engine_load / rpm) * 1000` when
rpm > 0, and is `None` (null) when rpm is missing or not positive; the ML
feature path then coerces that null to 0 (`... or 0`). -/
theorem load_rpm_ratio_spec (d : OBDData) :
    (∀ r : ℚ, d.rpm = some r → 0 < r →
        load_rpm_ratio d = some (d.engine_load.getD 0 / r * 1000)) ∧
    (∀ r : ℚ, d.rpm = some r → r ≤ 0 → load_rpm_ratio d = none) ∧
    (d.rpm = none → load_rpm_ratio d = none) ∧
    mlLoadRpmRatio d = (load_rpm_ratio d).getD 0 := by
  refine ⟨?_, ?_, ?_, ?_⟩
  · intro r hr hpos
    simp [load_rpm_ratio, hr, hpos]
  · intro r hr hnonpos
    simp [load_rpm_ratio, hr, not_lt.mpr hnonpos]
  · intro hr
    simp [load_rpm_ratio, hr]
  · unfold mlLoadRpmRatio pyOrZero
    cases h : load_rpm_ratio d with
    | none => simp
    | some v =>
      by_cases hv : v = 0 <;> simp [hv]

/-- Witness for C8: on the scenario-1 reading (rpm 1028 > 0) the ratio is
`50.6 / 1028 * 1000`, and on the stalled reading it is `None`, which the ML
path coerces to 0. -/
theorem load_rpm_ratio_spec_witness :
    load_rpm_ratio scenario1Reading = some (50.6 / 1028 * 1000) ∧
    load_rpm_ratio stalledReading = none ∧
    mlLoadRpmRatio stalledReading = 0 := by
  refine ⟨?_, ?_, ?_⟩
  · have h := (load_rpm_ratio_spec scenario1Reading).1 1028 rfl (by norm_num)
    rw [h]
    norm_num [scenario1Reading]
  · exact (load_rpm_ratio_spec stalledReading).2.1 0 rfl le_rfl
  · have h := (load_rpm_ratio_spec stalledReading).2.2.2
    rw [h, (load_rpm_ratio_spec stalledReading).2.1 0 rfl le_rfl]
    rfl

/-!
## Reading construction and the unsupported-voltage default

Per-parameter population in `read_obd_data` (`cloud_collector_daemon_pro.py`,
lines 273–287): a parameter whose OBD command is not in the supported set is
stored as 0; a supported parameter stores the queried value, stores 0 if the
query raises, and stores nothing if the response is null.
-/

/-- Outcome of querying one OBD command: `none` models the query raising an
exception, `some none` a null response, `some (some v)` a value `v`. -/
structure FieldRead where
  supported : Bool
  resp : Option (Option ℚ)

/-- Value stored for one dict key by the per-command loop of
`read_obd_data` (`none` = the key is never written). -/
def readField (f : FieldRead) : Option ℚ :=
  if f.supported then
    match f.resp with
    | some (some v) => some v
    | some none => none
    | none => some 0
  else some 0

/-- The sensor dict built by `read_obd_data` from per-command outcomes
`fields` plus the separately-queried DTC count and MIL status (both of which
are always written, defaulting to 0 / False on any failure). -/
def readOBDData (fields : String → FieldRead)
    (dtc : Option ℕ) (mil : Option Bool) : OBDData :=
  { rpm := readField (fields "rpm")
    speed := readField (fields "speed")
    coolant_temp := readField (fields "coolant_temp")
    engine_load := readField (fields "engine_load")
    throttle_pos := readField (fields "throttle_pos")
    short_fuel_trim_1 := readField (fields "short_fuel_trim_1")
    long_fuel_trim_1 := readField (fields "long_fuel_trim_1")
    maf := readField (fields "maf")
    o2_b1s1 := readField (fields "o2_b1s1")
    catalyst_temp_b1s1 := readField (fields "catalyst_temp_b1s1")
    control_module_voltage := readField (fields "control_module_voltage")
    distance_w_mil := readField (fields "distance_w_mil")
    dtc_count := some (dtc.getD 0)
    mil_status := some (mil.getD false) }

/-- C10: a reading built by `read_obd_data` from a vehicle that does not
support CONTROL_MODULE_VOLTAGE stores 0 in `control_module_voltage`; 0 < 11
satisfies the hard voltage threshold, so the rule engine classifies every
such reading CRITICAL with stress score 15, whatever the other sensors say. -/
theorem unsupported_voltage_forces_critical
    (fields : String → FieldRead) (dtc : Option ℕ) (mil : Option Bool)
    (h : (fields "control_module_voltage").supported = false) :
    (readOBDData fields dtc mil).control_module_voltage = some 0 ∧
    autoLabelHealth (readOBDData fields dtc mil) = (3, 15) := by
  have hv : (readOBDData fields dtc mil).control_module_voltage = some 0 := by
    simp [readOBDData, readField, h]
  refine ⟨hv, ?_⟩
  unfold autoLabelHealth
  rw [if_pos]
  right; left
  rw [hv]
  norm_num

/-- Witness for C10: the vehicle that supports no command at all and answers
no diagnostic query yields a reading classified (3, 15). -/
theorem unsupported_voltage_forces_critical_witness :
    ((fun _ : String => FieldRead.mk false none)
        "control_module_voltage").supported = false ∧
    autoLabelHealth
      (readOBDData (fun _ => FieldRead.mk false none) none none) = (3, 15) :=
  ⟨rfl,
   (unsupported_voltage_forces_critical
     (fun _ => FieldRead.mk false none) none none rfl).2⟩

end AutoPulse

namespace AutoPulse

/-!
## Data-quality scorer

`read_comprehensive_vehicle_data` (`automated_car_collector_daemon.py`,
lines 965–973) scores each reading from the number of commands attempted,
the number that succeeded, the wall-clock read duration (seconds) and the
size of the full parameter table.
-/

/-- The quality score exactly as the collector computes it. Note the
`max 0.5 (...)` floor on the timing factor. -/
def readQuality (attempted succeeded : ℕ) (duration : ℚ)
    (totalParams : ℕ) : ℚ :=
  let base_quality : ℚ :=
    if 0 < attempted then (succeeded : ℚ) / (max attempted 1 : ℕ) else 0
  let timing_factor : ℚ := max 0.5 (min 1 (2 / max duration 0.1))
  let completeness_factor : ℚ := (succeeded : ℚ) / (max totalParams 1 : ℕ)
  base_quality * 0.6 + timing_factor * 0.2 + completeness_factor * 0.2

/-- The quality formula as claim C6 words it: no 0.5 floor on the timing
factor. Kept separate so it can be compared with `readQuality`. -/
def claimQuality (attempted succeeded : ℕ) (duration : ℚ)
    (totalParams : ℕ) : ℚ :=
  0.6 * ((succeeded : ℚ) / attempted)
  + 0.2 * min 1 (2 / max duration 0.1)
  + 0.2 * ((succeeded : ℚ) / totalParams)

/-- Counterexample to C6: a slow read (20 s, all 20 attempted commands
succeeding, 25 possible parameters) scores 0.86 in the code (timing factor
floored at 0.5) but 0.78 under the formula of the claim (timing factor
0.1). -/
theorem quality_formula_differs :
    readQuality 20 20 20 25 = 0.86 ∧ claimQuality 20 20 20 25 = 0.78 ∧
    readQuality 20 20 20 25 ≠ claimQuality 20 20 20 25 := by
  refine ⟨?_, ?_, ?_⟩ <;>
    norm_num [readQuality, claimQuality, max_def, min_def]

/-- C6 (amended): for any positive attempt count and parameter-table size,
the quality score equals 0.6 × (succeeded/attempted) + 0.2 × timing_factor +
0.2 × (succeeded/totalParams), where the timing factor is
max(0.5, min(1.0, 2.0 / max(duration, 0.1))) — the code floors it at 0.5. -/
theorem quality_formula (attempted succeeded totalParams : ℕ) (duration : ℚ)
    (ha : 0 < attempted) (hn : 0 < totalParams) :
    readQuality attempted succeeded duration totalParams =
      0.6 * ((succeeded : ℚ) / attempted)
      + 0.2 * max 0.5 (min 1 (2 / max duration 0.1))
      + 0.2 * ((succeeded : ℚ) / totalParams) := by
  unfold readQuality
  rw [if_pos ha, Nat.max_eq_left ha, Nat.max_eq_left hn]
  ring

/-- Witness for C6: the amended formula evaluated at the counterexample
input (20 attempted, 20 succeeded, 20 s, 25 parameters). -/
theorem quality_formula_witness :
    (0 < 20 ∧ 0 < 25) ∧
    readQuality 20 20 20 25 =
      0.6 * ((20 : ℚ) / 20)
      + 0.2 * max 0.5 (min 1 (2 / max (20 : ℚ) 0.1))
      + 0.2 * ((20 : ℚ) / 25) :=
  ⟨⟨by norm_num, by norm_num⟩,
   quality_formula 20 20 25 20 (by norm_num) (by norm_num)⟩

/-!
## Collection-loop quality gate

`professional_collection_loop` (`automated_car_collector_daemon.py`,
lines 1227–1246): each poll increments `total_readings`; a reading is
converted and appended to the storage batch only when its quality score
reaches `quality_threshold` (default 0.3); otherwise it is merely logged
("Low quality data ignored") and dropped.
-/

/-- The loop state the quality gate touches: the in-memory storage batch
and the two reading counters. `α` is the (converted) data-point type. -/
structure LoopState (α : Type) where
  batch : List α
  total_readings : ℕ
  successful_readings : ℕ

/-- One iteration of the quality gate of `professional_collection_loop`. -/
def collectionStep {α : Type} (s : LoopState α) (dataPoint : α)
    (quality_score quality_threshold : ℚ) : LoopState α :=
  if quality_score ≥ quality_threshold then
    { batch := s.batch ++ [dataPoint]
      total_readings := s.total_readings + 1
      successful_readings := s.successful_readings + 1 }
  else
    { s with total_readings := s.total_readings + 1 }

/-- Counterexample to C4: a reading with quality 0.2 < threshold 0.3 is not
recorded anywhere — the batch (the only path to raw storage) stays empty;
only the attempt counter moves. -/
theorem low_quality_reading_dropped :
    (collectionStep (LoopState.mk ([] : List OBDData) 0 0)
        emptyReading 0.2 0.3).batch = [] ∧
    emptyReading ∉ (collectionStep (LoopState.mk ([] : List OBDData) 0 0)
        emptyReading 0.2 0.3).batch ∧
    (collectionStep (LoopState.mk ([] : List OBDData) 0 0)
        emptyReading 0.2 0.3).total_readings = 1 := by
  refine ⟨?_, ?_, ?_⟩ <;> norm_num [collectionStep]

/-- C4 (amended): a reading whose quality score falls below the acceptance
threshold is dropped entirely — it is not appended to the storage batch and
is not counted successful; only the attempt counter increments. A reading at
or above the threshold is appended to the batch. -/
theorem quality_gate_spec {α : Type} (s : LoopState α) (p : α)
    (q thr : ℚ) :
    (q < thr →
        (collectionStep s p q thr).batch = s.batch ∧
        (collectionStep s p q thr).successful_readings =
          s.successful_readings ∧
        (collectionStep s p q thr).total_readings = s.total_readings + 1) ∧
    (thr ≤ q → (collectionStep s p q thr).batch = s.batch ++ [p]) := by
  constructor
  · intro h
    rw [collectionStep, if_neg (not_le.mpr h)]
    exact ⟨rfl, rfl, rfl⟩
  · intro h
    rw [collectionStep, if_pos h]

/-- Witness for C4: the gate applied to quality 0.2 (below 0.3, dropped) and
to quality 0.9 (accepted and appended). -/
theorem quality_gate_spec_witness :
    (0.2 : ℚ) < 0.3 ∧
    (collectionStep (LoopState.mk ([] : List OBDData) 3 2)
        emptyReading 0.2 0.3).batch = [] ∧
    (collectionStep (LoopState.mk ([] : List OBDData) 3 2)
        emptyReading 0.9 0.3).batch = [emptyReading] := by
  refine ⟨by norm_num, ?_, ?_⟩
  · exact ((quality_gate_spec (LoopState.mk [] 3 2) emptyReading
      0.2 0.3).1 (by norm_num)).1
  · have h := (quality_gate_spec (LoopState.mk ([] : List OBDData) 3 2)
      emptyReading 0.9 0.3).2 (by norm_num)
    simpa using h

end AutoPulse

namespace AutoPulse

/-!
## Web-server health predictor and its rule-based fallback

`MLPredictor` in `src/web_server.py`: `load_model` (lines 83–144) tries to
load a trained Random Forest package and on *any* failure (no model file, or
an exception while loading) installs the rule-based fallback and still
reports the model as loaded; `predict_vehicle_health` (lines 146–177)
dispatches to the Random Forest when the loaded model object has a `predict`
method, and to `_predict_with_rules` otherwise — and also falls back to the
rules when the Random Forest path raises.
-/

/-- The sensor dict as the web-server predictor reads it (defaults are the
`data.get(...)` fallbacks of `_calculate_simple_health_score`). -/
structure WebSensorData where
  rpm : Option ℚ := none
  coolant_temp : Option ℚ := none
  engine_load : Option ℚ := none
  throttle_pos : Option ℚ := none
  vehicle_speed : Option ℚ := none
  fuel_level : Option ℚ := none
  maf : Option ℚ := none
  timing_advance : Option ℚ := none
  data_quality_score : Option ℚ := none

/-- The scorer `_calculate_simple_health_score` (lines 306–397): start at
100, subtract
per detected condition, clamp into 0..100. -/
def calculateSimpleHealthScore (d : WebSensorData) : ℤ :=
  let score : ℤ := 100
  let coolant_temp := d.coolant_temp.getD 90
  let score := if coolant_temp > 115 then score - 40
    else if coolant_temp > 105 then score - 25
    else if coolant_temp > 100 then score - 10
    else if coolant_temp < 70 then score - 5
    else score
  let rpm := d.rpm.getD 800
  let score := if rpm > 7000 then score - 35
    else if rpm > 6000 then score - 20
    else if rpm > 4500 then score - 8
    else if rpm < 500 ∧ rpm > 0 then score - 15
    else score
  let engine_load := d.engine_load.getD 20
  let score := if engine_load > 95 then score - 25
    else if engine_load > 85 then score - 12
    else score
  let throttle_pos := d.throttle_pos.getD 10
  let score := if throttle_pos > 90 ∧ engine_load < 30 then score - 20
    else score
  let vehicle_speed := d.vehicle_speed.getD 0
  let score :=
    if vehicle_speed > 0 ∧ rpm > 0 ∧ vehicle_speed / (rpm / 1000) < 5
    then score - 15 else score
  let fuel_level := d.fuel_level.getD 50
  let score := if fuel_level < 5 then score - 20
    else if fuel_level < 15 then score - 10
    else score
  let maf := d.maf.getD 0
  let score := if maf > 0 ∧ (maf < 2 ∨ maf > 300) then score - 12 else score
  let timing_advance := d.timing_advance.getD 10
  let score := if timing_advance < -10 then score - 18
    else if timing_advance < 0 then score - 8
    else score
  let data_quality := d.data_quality_score.getD 1
  let score := if data_quality < 0.7 then score - 5 else score
  max 0 (min 100 score)

/-- The banding function `_determine_status` (lines 399–408). -/
def determineStatus (health_score : ℤ) : String :=
  if health_score ≥ 80 then "NORMAL"
  else if health_score ≥ 60 then "ADVISORY"
  else if health_score ≥ 40 then "WARNING"
  else "CRITICAL"

/-- A loaded Random Forest package. The trained model is an external
artifact, so its prediction is an abstract function from the sensor dict to
a (status, confidence) pair — `none` models the prediction raising. -/
structure RFPackage where
  predictResult : WebSensorData → Option (String × ℚ)

/-- What `self.model` holds after `load_model`: the Random Forest package,
or the `"rule_based_mvp"` marker string (which has no `predict` method). -/
inductive LoadedModel
  | randomForest (pkg : RFPackage)
  | ruleBasedMVP

/-- Predictor state after `load_model`. -/
structure PredictorState where
  model : LoadedModel
  model_loaded : Bool

/-- The three ways `load_model` can go: a model package is found and loads,
no model file exists, or loading raises. -/
inductive LoadOutcome
  | found (pkg : RFPackage)
  | noModelFile
  | loadFailure

/-- The loader `load_model` (lines 83–144): every branch sets
`model_loaded = True`;
both failure branches install the rule-based marker. -/
def load_model : LoadOutcome → PredictorState
  | .found pkg => ⟨.randomForest pkg, true⟩
  | .noModelFile => ⟨.ruleBasedMVP, true⟩
  | .loadFailure => ⟨.ruleBasedMVP, true⟩

/-- Result record of `predict_vehicle_health` (the fields the claims are
about). -/
structure PredictResult where
  success : Bool
  health_score : ℤ
  status : String
  prediction_method : String

/-- The mapping `_status_to_health_score` (lines 263–271). -/
def statusToHealthScore (status : String) : ℤ :=
  if status = "NORMAL" then 95
  else if status = "ADVISORY" then 75
  else if status = "WARNING" then 45
  else if status = "CRITICAL" then 15
  else 50

/-- The fallback `_predict_with_rules` (lines 248–261). -/
def predictWithRules (d : WebSensorData) : PredictResult :=
  let health_score := calculateSimpleHealthScore d
  ⟨true, health_score, determineStatus health_score, "Rule-based"⟩

/-- The dispatcher `predict_vehicle_health` (lines 146–177) with the
Random-Forest inner
path of `_predict_with_random_forest` (whose `except` clause also falls back
to the rules, lines 243–246). -/
def predict_vehicle_health (s : PredictorState) (d : WebSensorData) :
    PredictResult :=
  if ¬ s.model_loaded then ⟨false, 0, "UNKNOWN", "none"⟩
  else
    match s.model with
    | .randomForest pkg =>
      match pkg.predictResult d with
      | some (st, _) => ⟨true, statusToHealthScore st, st, "Random Forest"⟩
      | none => predictWithRules d
    | .ruleBasedMVP => predictWithRules d

/-- The rule-based score is clamped into 0..100. -/
theorem simpleHealthScore_bounds (d : WebSensorData) :
    0 ≤ calculateSimpleHealthScore d ∧ calculateSimpleHealthScore d ≤ 100 := by
  unfold calculateSimpleHealthScore
  refine ⟨le_max_left 0 _, max_le (by norm_num) (min_le_left _ _)⟩

/-- The function `determineStatus` only ever produces the four ordinal
state names. -/
theorem determineStatus_mem (health_score : ℤ) :
    determineStatus health_score = "NORMAL" ∨
    determineStatus health_score = "ADVISORY" ∨
    determineStatus health_score = "WARNING" ∨
    determineStatus health_score = "CRITICAL" := by
  unfold determineStatus
  split_ifs <;> simp

/-- C3: when the trained model cannot be loaded (file missing or load
raising), classification falls back to the rule engine and still produces a
result for every sensor input: success is reported, the method is the
rule-based one, and the result carries one of the four health states with a
0..100 health score. -/
theorem model_load_failure_falls_back_to_rules
    (outcome : LoadOutcome) (d : WebSensorData)
    (h : outcome = LoadOutcome.noModelFile ∨
         outcome = LoadOutcome.loadFailure) :
    (predict_vehicle_health (load_model outcome) d).success = true ∧
    (predict_vehicle_health (load_model outcome) d).prediction_method =
      "Rule-based" ∧
    (predict_vehicle_health (load_model outcome) d).health_score =
      calculateSimpleHealthScore d ∧
    0 ≤ (predict_vehicle_health (load_model outcome) d).health_score ∧
    (predict_vehicle_health (load_model outcome) d).health_score ≤ 100 ∧
    ((predict_vehicle_health (load_model outcome) d).status = "NORMAL" ∨
     (predict_vehicle_health (load_model outcome) d).status = "ADVISORY" ∨
     (predict_vehicle_health (load_model outcome) d).status = "WARNING" ∨
     (predict_vehicle_health (load_model outcome) d).status = "CRITICAL") := by
  have hrules : predict_vehicle_health (load_model outcome) d =
      predictWithRules d := by
    rcases h with h | h <;> subst h <;> rfl
  rw [hrules]
  unfold predictWithRules
  exact ⟨rfl, rfl, rfl, (simpleHealthScore_bounds d).1,
    (simpleHealthScore_bounds d).2, determineStatus_mem _⟩

/-- A sensor dict with every key absent. -/
def nominalWeb : WebSensorData := {}

/-- Witness for C3: with no model file and an all-defaults sensor dict, the
predictor still succeeds via the rule-based path. -/
theorem model_load_failure_falls_back_to_rules_witness :
    (predict_vehicle_health (load_model LoadOutcome.noModelFile)
        nominalWeb).success = true ∧
    (predict_vehicle_health (load_model LoadOutcome.noModelFile)
        nominalWeb).prediction_method = "Rule-based" :=
  ⟨(model_load_failure_falls_back_to_rules LoadOutcome.noModelFile
      nominalWeb (Or.inl rfl)).1,
   (model_load_failure_falls_back_to_rules LoadOutcome.noModelFile
      nominalWeb (Or.inl rfl)).2.1⟩

end AutoPulse

namespace AutoPulse

/-!
## Vehicle identity resolution

`generate_vehicle_signature` (`cloud_collector_daemon_pro.py`, lines
125–160) fingerprints a vehicle from the string forms of its supported
commands — sorted, concatenated, then hashed — optionally appending a valid
VIN; with no information at all it falls back to hashing the current time.
`get_or_create_vehicle_profile` (`supabase_direct_storage.py`, lines 72–112)
looks the identifier up in the vehicle_profiles table and inserts a fresh
row when absent.
-/

/-- Sorted concatenation of the command strings: the Python
join-of-sorted fingerprint. -/
def signatureCmdString (cmds : List String) : String :=
  String.join (List.insertionSort (· ≤ ·) cmds)

/-- The fingerprint `generate_vehicle_signature`, parameterised by the
external hash
functions (`sha256t` = sha256 hex digest truncated to 32 characters,
`md5t` = md5 hex digest truncated to 16) and by the rendered current time
the no-information fallback hashes. -/
def generateVehicleSignature (sha256t md5t : String → String) (now : String)
    (cmds : List String) (vin : Option String) : String :=
  let components : List String :=
    (if cmds.isEmpty then [] else [signatureCmdString cmds]) ++
    (match vin with
     | some v => if v.length = 17 then [v] else []
     | none => [])
  if components.isEmpty then md5t ("fallback_" ++ now)
  else sha256t (String.intercalate "|" components)

/-- The vehicle_profiles table as the resolver sees it: rows of
(car_identifier, id) plus the id the next insert receives. -/
structure VehicleStore where
  profiles : List (String × ℕ)
  nextId : ℕ

/-- Find-or-create `get_or_create_vehicle_profile`: return the id of the
existing row when the identifier is present, else insert a new row and
return its id. -/
def getOrCreateVehicleProfile (s : VehicleStore) (carId : String) :
    ℕ × VehicleStore :=
  match s.profiles.find? (fun p => p.1 == carId) with
  | some p => (p.2, s)
  | none => (s.nextId, ⟨s.profiles ++ [(carId, s.nextId)], s.nextId + 1⟩)

/-- A find? lookup skips a prefix in which nothing matches. -/
theorem find?_append_of_none {α : Type} (p : α → Bool) (l l' : List α)
    (h : l.find? p = none) : (l ++ l').find? p = l'.find? p := by
  induction l with
  | nil => rfl
  | cons a t ih =>
    by_cases hpa : p a
    · rw [List.find?_cons_of_pos _ hpa] at h
      exact absurd h (by simp)
    · rw [List.find?_cons_of_neg _ hpa] at h
      rw [List.cons_append, List.find?_cons_of_neg _ hpa]
      exact ih h

/-- Looking the same identifier up again right after a find-or-create
returns the same profile id. -/
theorem getOrCreate_stable (s : VehicleStore) (carId : String) :
    (getOrCreateVehicleProfile
        (getOrCreateVehicleProfile s carId).2 carId).1 =
      (getOrCreateVehicleProfile s carId).1 := by
  unfold getOrCreateVehicleProfile
  cases h : s.profiles.find? (fun p => p.1 == carId) with
  | some p => simp [h]
  | none =>
    simp only [h]
    rw [find?_append_of_none _ _ _ h]
    simp [List.find?]

/-- Sorting is invariant under permutation of the input list. -/
theorem signatureCmdString_perm {cmds₁ cmds₂ : List String}
    (h : cmds₁.Perm cmds₂) :
    signatureCmdString cmds₁ = signatureCmdString cmds₂ := by
  unfold signatureCmdString
  congr 1
  exact List.eq_of_perm_of_sorted
    ((List.perm_insertionSort _ _).trans
      (h.trans (List.perm_insertionSort _ _).symm))
    (List.sorted_insertionSort _ _) (List.sorted_insertionSort _ _)

/-- C9: two sessions that expose the same (nonempty) supported-command set —
in any iteration order — and no VIN produce the same signature hash, because
the command strings are sorted before hashing; consequently find-or-create
resolves both sessions to the same vehicle id. -/
theorem vehicle_signature_deterministic
    (sha256t md5t : String → String) (now₁ now₂ : String)
    (cmds₁ cmds₂ : List String) (hperm : cmds₁.Perm cmds₂)
    (hne : cmds₁ ≠ []) (s : VehicleStore) :
    generateVehicleSignature sha256t md5t now₁ cmds₁ none =
      generateVehicleSignature sha256t md5t now₂ cmds₂ none ∧
    (getOrCreateVehicleProfile
        (getOrCreateVehicleProfile s
          (generateVehicleSignature sha256t md5t now₁ cmds₁ none)).2
        (generateVehicleSignature sha256t md5t now₂ cmds₂ none)).1 =
      (getOrCreateVehicleProfile s
        (generateVehicleSignature sha256t md5t now₁ cmds₁ none)).1 := by
  have hne₂ : cmds₂ ≠ [] := fun hnil => hne (by simpa [hnil] using hperm)
  have hsig : generateVehicleSignature sha256t md5t now₁ cmds₁ none =
      generateVehicleSignature sha256t md5t now₂ cmds₂ none := by
    unfold generateVehicleSignature
    simp [List.isEmpty_iff, hne, hne₂, signatureCmdString_perm hperm]
  exact ⟨hsig, by rw [← hsig]; exact getOrCreate_stable s _⟩

/-- Witness for C9: the two-command set {RPM, SPEED} presented in both
orders, with the identity function standing for the hash, resolves to the
same signature and the same vehicle id starting from an empty table. -/
theorem vehicle_signature_deterministic_witness :
    generateVehicleSignature id id "t1" ["SPEED", "RPM"] none =
      generateVehicleSignature id id "t2" ["RPM", "SPEED"] none ∧
    (getOrCreateVehicleProfile
        (getOrCreateVehicleProfile (VehicleStore.mk [] 1)
          (generateVehicleSignature id id "t1" ["SPEED", "RPM"] none)).2
        (generateVehicleSignature id id "t2" ["RPM", "SPEED"] none)).1 =
      (getOrCreateVehicleProfile (VehicleStore.mk [] 1)
        (generateVehicleSignature id id "t1" ["SPEED", "RPM"] none)).1 :=
  vehicle_signature_deterministic id id "t1" "t2"
    ["SPEED", "RPM"] ["RPM", "SPEED"]
    (List.Perm.swap "RPM" "SPEED" []) (by simp) (VehicleStore.mk [] 1)

end AutoPulse
